import Mathlib

/-!
Shallow embedding of the Telescope message-routed client/server layer.

Server side: packages/core/src/server.ts (TelescopeServer.routeMessage,
handleConnection, sendResponse, sendError).
Client side: packages/browser-runtime TelescopeClient (connect, send,
handleMessage, reconnect, flushMessageQueue, disconnect).
Supervisor: packages/cli/src/commands/start.ts (startCommand).

Stateful methods become explicit state-passing functions returning the new
state together with a list of observable effects (transport sends, future
resolutions/rejections, scheduled timers).  Asynchronous callbacks
(onopen, onclose, the request-timeout timer) become separate event
functions applied to the state when the event fires.
-/

namespace Telescope

/-- Payload of a wire envelope (payload: any in types.ts).  The routing layer
only ever inspects the message field of error payloads; everything else is
opaque. -/
inductive Payload where
  | status (s : String)
  | errorInfo (message : String) (stack : String)
  | opaque_ (raw : String)
deriving DecidableEq

/-- WebSocketMessage from packages/core/src/types.ts. -/
structure WebSocketMessage where
  type : String
  payload : Payload
  requestId : String
  timestamp : Nat
deriving DecidableEq

/-- A JavaScript Error value: only its message and stack reach the wire. -/
structure JsError where
  message : String
  stack : String
deriving DecidableEq

/-! ## Server: packages/core/src/server.ts -/

/-- The message kinds with a case in routeMessage. -/
def recognizedKinds : List String :=
  ["component-selected", "open-editor", "generate-testids", "insert-code"]

/-- TelescopeServer.sendResponse: the response envelope is always built with
type component-selected, echoing the requestId, timestamp Date.now(). -/
def sendResponse (now : Nat) (requestId : String) (payload : Payload) : WebSocketMessage :=
  { type := "component-selected", payload := payload, requestId := requestId, timestamp := now }

/-- TelescopeServer.sendError: error envelope carrying the error message and
stack, echoing the requestId. -/
def sendError (now : Nat) (requestId : String) (e : JsError) : WebSocketMessage :=
  { type := "error", payload := Payload.errorInfo e.message e.stack,
    requestId := requestId, timestamp := now }

/-- TelescopeServer.routeMessage: switch on message.type; the four handlers are
placeholders that respond with a status payload; the default case throws
Unknown message type which the surrounding catch turns into sendError with the
same requestId.  (The thrown Error has an environment-provided stack trace,
modelled as the empty string.) -/
def routeMessage (now : Nat) (msg : WebSocketMessage) : WebSocketMessage :=
  if msg.type = "component-selected" then
    sendResponse now msg.requestId (Payload.status "acknowledged")
  else if msg.type = "open-editor" then
    sendResponse now msg.requestId (Payload.status "pending")
  else if msg.type = "generate-testids" then
    sendResponse now msg.requestId (Payload.status "pending")
  else if msg.type = "insert-code" then
    sendResponse now msg.requestId (Payload.status "pending")
  else
    sendError now msg.requestId { message := "Unknown message type: " ++ msg.type, stack := "" }

/-- TelescopeServer.handleConnection message listener: JSON.parse of the frame
either yields an envelope (routed) or throws (caught: the error is logged and
sendError is called with the literal requestId "unknown").  The parse outcome is
the environment input; the returned list is every envelope written back. -/
def handleFrame (now : Nat) (frame : Except JsError WebSocketMessage) : List WebSocketMessage :=
  match frame with
  | Except.ok msg => [routeMessage now msg]
  | Except.error e => [sendError now "unknown" e]

/-! ## Client: TelescopeClient -/

/-- WebSocket readyState constants. -/
inductive ReadyState where
  | CONNECTING
  | OPEN
  | CLOSING
  | CLOSED
deriving DecidableEq

/-- Instance fields of TelescopeClient that the routing logic reads or writes.
The pending-request Map is modelled by its key set (a list of correlation ids);
the resolve/reject callbacks become resolveFuture/rejectFuture effects.
messageHandlers is modelled by its key set likewise. -/
structure ClientState where
  ws : Option ReadyState
  messageQueue : List WebSocketMessage
  pendingRequests : List String
  reconnectAttempts : Nat
  isConnecting : Bool
  messageHandlers : List String
deriving DecidableEq

/-- Field initializer: maxReconnectAttempts = 5. -/
def maxReconnectAttempts : Nat := 5

/-- Field initializer: reconnectDelay = 1000 (ms). -/
def reconnectDelay : Nat := 1000

/-- The 10000 ms request timeout hard-coded in send(). -/
def requestTimeoutMs : Nat := 10000

/-- The 5000 ms connection timeout hard-coded in connect(). -/
def connectTimeoutMs : Nat := 5000

/-- Default constructor url. -/
def clientUrl : String := "ws://localhost:3737"

/-- Observable effects of a client method or event handler, in program order. -/
inductive ClientEffect where
  | newTransport (url : String)
  | scheduleConnectTimeout (ms : Nat)
  | transportSend (msg : WebSocketMessage)
  | transportClose
  | resolveFuture (requestId : String) (payload : Payload)
  | rejectFuture (requestId : String) (message : String)
  | invokeHandler (kind : String) (payload : Payload)
  | scheduleTimeout (requestId : String) (ms : Nat)
  | scheduleReconnect (ms : Nat)
deriving DecidableEq

/-- The check this.ws && this.ws.readyState === WebSocket.OPEN. -/
def isOpen (s : ClientState) : Bool :=
  s.ws == some ReadyState.OPEN

/-- A client as first constructed (initial field values). -/
def freshClient : ClientState :=
  { ws := none, messageQueue := [], pendingRequests := [], reconnectAttempts := 0,
    isConnecting := false, messageHandlers := [] }

/-- TelescopeClient.connect: early-return if the socket is already OPEN or a
connection attempt is in progress; otherwise set isConnecting, construct a new
WebSocket (readyState CONNECTING) and arm the 5 s connection timeout.  The
onopen/onclose callbacks are the separate events handleOpen/handleClose. -/
def connect (s : ClientState) : ClientState × List ClientEffect :=
  if isOpen s then (s, [])
  else if s.isConnecting then (s, [])
  else
    ({ s with isConnecting := true, ws := some ReadyState.CONNECTING },
      [ClientEffect.newTransport clientUrl,
       ClientEffect.scheduleConnectTimeout connectTimeoutMs])

/-- The while-loop body of flushMessageQueue: shift a message, try ws.send;
on success continue, on a send exception unshift it back and break.  sendOk is
the environment outcome of each ws.send call.  Returns the remaining queue and
the transmitted messages in order. -/
def flushLoop (sendOk : WebSocketMessage → Bool) :
    List WebSocketMessage → List WebSocketMessage × List ClientEffect
  | [] => ([], [])
  | m :: rest =>
    if sendOk m then
      let r := flushLoop sendOk rest
      (r.1, ClientEffect.transportSend m :: r.2)
    else (m :: rest, [])

/-- TelescopeClient.flushMessageQueue: no-op unless the socket is OPEN, then
drains the queue front-first. -/
def flushMessageQueue (sendOk : WebSocketMessage → Bool) (s : ClientState) :
    ClientState × List ClientEffect :=
  if isOpen s then
    let r := flushLoop sendOk s.messageQueue
    ({ s with messageQueue := r.1 }, r.2)
  else (s, [])

/-- The ws.onopen callback: the socket is now OPEN; clear isConnecting, reset
reconnectAttempts to 0 and flush the queue (then the connect promise resolves). -/
def handleOpen (sendOk : WebSocketMessage → Bool) (s : ClientState) :
    ClientState × List ClientEffect :=
  flushMessageQueue sendOk
    { s with ws := some ReadyState.OPEN, isConnecting := false, reconnectAttempts := 0 }

/-- Map.set on the pending-request table, modelled on its key set. -/
def registerPending (s : ClientState) (requestId : String) : ClientState :=
  if s.pendingRequests.contains requestId then s
  else { s with pendingRequests := s.pendingRequests ++ [requestId] }

/-- The full envelope built at the top of send(): spread of the caller message
plus the generated requestId and timestamp Date.now(). -/
structure OutboundRequest where
  type : String
  payload : Payload
deriving DecidableEq

def fullMessage (req : OutboundRequest) (requestId : String) (now : Nat) : WebSocketMessage :=
  { type := req.type, payload := req.payload, requestId := requestId, timestamp := now }

/-- generateRequestId: Date.now() concatenated with a random base-36 suffix. -/
def generateRequestId (now : Nat) (randomSuffix : String) : String :=
  toString now ++ "-" ++ randomSuffix

/-- TelescopeClient.send.  Not OPEN: push the envelope on messageQueue, kick off
connect() (fire-and-forget), register the pending entry and arm the 10 s
timeout.  OPEN: ws.send the envelope (throwing Failed to send message if the
transport raises), then register the pending entry and arm the timeout. -/
def send (sendOk : WebSocketMessage → Bool) (s : ClientState) (req : OutboundRequest)
    (requestId : String) (now : Nat) : Except String (ClientState × List ClientEffect) :=
  let full := fullMessage req requestId now
  if isOpen s then
    if sendOk full then
      Except.ok (registerPending s requestId,
        [ClientEffect.transportSend full,
         ClientEffect.scheduleTimeout requestId requestTimeoutMs])
    else Except.error "Failed to send message"
  else
    let s1 := { s with messageQueue := s.messageQueue ++ [full] }
    let r := connect s1
    Except.ok (registerPending r.1 requestId,
      r.2 ++ [ClientEffect.scheduleTimeout requestId requestTimeoutMs])

/-- message.payload.message or the fallback Server error (JavaScript truthiness:
a missing field and the empty string both fall back). -/
def jsOrServerError (p : Payload) : String :=
  match p with
  | Payload.errorInfo m _ => if m = "" then "Server error" else m
  | _ => "Server error"

/-- TelescopeClient.handleMessage: if message.requestId is truthy and has a
pending entry, delete the entry and reject (type error) or resolve (anything
else) its future; otherwise dispatch to a registered handler for the type, if
any; otherwise drop. -/
def handleMessage (s : ClientState) (msg : WebSocketMessage) : ClientState × List ClientEffect :=
  if msg.requestId != "" && s.pendingRequests.contains msg.requestId then
    let s1 := { s with pendingRequests := s.pendingRequests.filter (fun rid => rid != msg.requestId) }
    if msg.type = "error" then
      (s1, [ClientEffect.rejectFuture msg.requestId (jsOrServerError msg.payload)])
    else
      (s1, [ClientEffect.resolveFuture msg.requestId msg.payload])
  else if s.messageHandlers.contains msg.type then
    (s, [ClientEffect.invokeHandler msg.type msg.payload])
  else
    (s, [])

/-- The 10 s timer armed by send(): if the entry is still pending, delete it and
reject with Request timeout; otherwise do nothing. -/
def requestTimeoutFire (s : ClientState) (requestId : String) : ClientState × List ClientEffect :=
  if s.pendingRequests.contains requestId then
    ({ s with pendingRequests := s.pendingRequests.filter (fun rid => rid != requestId) },
      [ClientEffect.rejectFuture requestId "Request timeout"])
  else (s, [])

/-- TelescopeClient.reconnect: give up (no timer) once reconnectAttempts has
reached maxReconnectAttempts; otherwise schedule a connect() after
reconnectDelay * 2 ^ reconnectAttempts ms and increment the counter. -/
def reconnect (s : ClientState) : ClientState × List ClientEffect :=
  if maxReconnectAttempts ≤ s.reconnectAttempts then (s, [])
  else
    ({ s with reconnectAttempts := s.reconnectAttempts + 1 },
      [ClientEffect.scheduleReconnect (reconnectDelay * 2 ^ s.reconnectAttempts)])

/-- The ws.onclose callback: clear isConnecting, null the socket and call
reconnect() unconditionally (the code has no flag distinguishing a deliberate
disconnect() from an unexpected drop). -/
def handleClose (s : ClientState) : ClientState × List ClientEffect :=
  reconnect { s with isConnecting := false, ws := none }

/-- TelescopeClient.disconnect: close and null the socket, empty messageQueue,
clear the pending-request Map (no callback is invoked on the cleared entries)
and reset reconnectAttempts to 0. -/
def disconnect (s : ClientState) : ClientState × List ClientEffect :=
  if s.ws.isSome then
    ({ s with ws := none, messageQueue := [], pendingRequests := [], reconnectAttempts := 0 },
      [ClientEffect.transportClose])
  else
    ({ s with ws := none, messageQueue := [], pendingRequests := [], reconnectAttempts := 0 },
      [])

/-! ## Observation helpers -/

/-- The correlation id whose future an effect settles, if any. -/
def ClientEffect.settledId : ClientEffect → Option String
  | ClientEffect.resolveFuture rid _ => some rid
  | ClientEffect.rejectFuture rid _ => some rid
  | _ => none

def ClientEffect.isNewTransport : ClientEffect → Bool
  | ClientEffect.newTransport _ => true
  | _ => false

/-- The envelopes actually written to the transport, in order. -/
def transportSends (effs : List ClientEffect) : List WebSocketMessage :=
  effs.filterMap fun e => match e with
    | ClientEffect.transportSend m => some m
    | _ => none

/-- Number of WebSocket constructions among the effects. -/
def countNewTransports (effs : List ClientEffect) : Nat :=
  (effs.filter ClientEffect.isNewTransport).length

/-- Whether some effect rejects the future of the given correlation id. -/
def hasRejectFor (effs : List ClientEffect) (requestId : String) : Bool :=
  effs.any fun e => match e with
    | ClientEffect.rejectFuture rid _ => rid == requestId
    | _ => false

/-- Iterate reconnect n times, concatenating the effects (each onclose of a
failed attempt calls reconnect again). -/
def iterateReconnect : Nat → ClientState → ClientState × List ClientEffect
  | 0, s => (s, [])
  | n + 1, s =>
    let r1 := reconnect s
    let r2 := iterateReconnect n r1.1
    (r2.1, r1.2 ++ r2.2)

/-! ## Process supervisor: packages/cli/src/commands/start.ts -/

/-- The cross-process world the start command touches: the .hubble.pid file
content and the set of live process ids. -/
structure SupervisorWorld where
  pidFile : Option Nat
  livePids : List Nat
deriving DecidableEq

/-- Failure modes of starting; alreadyRunning is in the taxonomy of the design
but, as proved below, never produced by the code. -/
inductive StartError where
  | alreadyRunning
  | serverStartFailed (msg : String)
deriving DecidableEq

/-- Result of a successful startCommand: the updated world, the pid written to
the Liveness Record, and the child process spawned (none: the server runs
inside the supervising CLI process itself). -/
structure StartOutcome where
  world : SupervisorWorld
  recordedPid : Nat
  spawnedChildPid : Option Nat
deriving DecidableEq

/-- startCommand: load config, start the server in this very process (failure
of server.start rejects), then unconditionally write process.pid to .hubble.pid.
No existing-record check is performed and no child process is spawned. -/
def startCommand (selfPid : Nat) (serverStartOk : Bool) (w : SupervisorWorld) :
    Except StartError StartOutcome :=
  if serverStartOk then
    Except.ok { world := { w with pidFile := some selfPid },
                recordedPid := selfPid, spawnedChildPid := none }
  else
    Except.error (StartError.serverStartFailed "Failed to start server")

/-! ## Helper lemmas -/

theorem contains_filter_ne (l : List String) (a b : String) (h : b ≠ a) :
    (l.filter (fun x => x != a)).contains b = l.contains b := by
  induction l with
  | nil => rfl
  | cons x xs ih =>
    by_cases hx : x = a
    · subst hx
      simp [List.filter_cons, List.contains_cons, ih, h]
    · simp [List.filter_cons, List.contains_cons, ih, hx, h]

theorem contains_filter_self (l : List String) (a : String) :
    (l.filter (fun x => x != a)).contains a = false := by
  induction l with
  | nil => rfl
  | cons x xs ih =>
    by_cases hx : x = a
    · subst hx; simp [List.filter_cons, ih]
    · simp [List.filter_cons, List.contains_cons, ih, hx, Ne.symm hx]

theorem flushLoop_all_ok (sendOk : WebSocketMessage → Bool) (q : List WebSocketMessage)
    (h : ∀ m, sendOk m = true) :
    flushLoop sendOk q = ([], q.map ClientEffect.transportSend) := by
  induction q with
  | nil => rfl
  | cons m rest ih => simp [flushLoop, h, ih]

theorem transportSends_map (q : List WebSocketMessage) :
    transportSends (q.map ClientEffect.transportSend) = q := by
  induction q with
  | nil => rfl
  | cons m rest ih =>
    simp only [transportSends, List.map_cons, List.filterMap_cons] at ih ⊢
    simpa using ih

theorem transportSends_append (a b : List ClientEffect) :
    transportSends (a ++ b) = transportSends a ++ transportSends b := by
  simp [transportSends]


theorem mem_filter_ne (l : List String) (a b : String) (h : b ≠ a) :
    (b ∈ l.filter (fun x => x != a)) ↔ b ∈ l := by
  simp [List.mem_filter, h]

theorem not_mem_filter_self (l : List String) (a : String) :
    a ∉ l.filter (fun x => x != a) := by
  simp [List.mem_filter]

theorem connect_preserves_queue (t : ClientState) :
    (connect t).1.messageQueue = t.messageQueue := by
  unfold connect
  split
  next => rfl
  next => split <;> rfl

theorem connect_no_transportSend (t : ClientState) :
    transportSends (connect t).2 = [] := by
  unfold connect
  split
  next => rfl
  next => split <;> rfl

theorem registerPending_queue (t : ClientState) (rid : String) :
    (registerPending t rid).messageQueue = t.messageQueue := by
  unfold registerPending
  split <;> rfl

theorem send_not_open (sendOk : WebSocketMessage → Bool) (s : ClientState) (req : OutboundRequest)
    (rid : String) (now : Nat) (hno : isOpen s = false) :
    send sendOk s req rid now =
      Except.ok
        (registerPending
          (connect { s with messageQueue := s.messageQueue ++ [fullMessage req rid now] }).1 rid,
         (connect { s with messageQueue := s.messageQueue ++ [fullMessage req rid now] }).2 ++
           [ClientEffect.scheduleTimeout rid requestTimeoutMs]) := by
  unfold send
  rw [if_neg (by simp [hno])]

theorem send_open (sendOk : WebSocketMessage → Bool) (s : ClientState) (req : OutboundRequest)
    (rid : String) (now : Nat) (ho : isOpen s = true)
    (hok : sendOk (fullMessage req rid now) = true) :
    send sendOk s req rid now =
      Except.ok (registerPending s rid,
        [ClientEffect.transportSend (fullMessage req rid now),
         ClientEffect.scheduleTimeout rid requestTimeoutMs]) := by
  unfold send
  rw [if_pos ho, if_pos hok]

theorem handleOpen_eq (sendOk : WebSocketMessage → Bool) (s : ClientState)
    (hAll : ∀ m, sendOk m = true) :
    handleOpen sendOk s =
      ({ ws := some ReadyState.OPEN, messageQueue := [], pendingRequests := s.pendingRequests,
         reconnectAttempts := 0, isConnecting := false, messageHandlers := s.messageHandlers },
       s.messageQueue.map ClientEffect.transportSend) := by
  unfold handleOpen flushMessageQueue
  rw [flushLoop_all_ok sendOk _ hAll]
  simp [isOpen]

/-! ## Claims -/

/-- Claim C1: a settlement effect emitted by handleMessage always carries the
correlation id of the inbound response it was produced from, rejecting with the
error payload message when the response kind is error and resolving with the
response payload otherwise; pending entries of every other correlation id are
left exactly as they were, so with two requests in flight each entry is settled
only by the response carrying its own id. -/
theorem handleMessage_settles_only_matching (s : ClientState) (msg : WebSocketMessage)
    (e : ClientEffect) (he : e ∈ (handleMessage s msg).2) (hs : e.settledId ≠ none) :
    e.settledId = some msg.requestId ∧
    (e = ClientEffect.resolveFuture msg.requestId msg.payload ∨
      (msg.type = "error" ∧
        e = ClientEffect.rejectFuture msg.requestId (jsOrServerError msg.payload))) ∧
    ∀ rid, rid ≠ msg.requestId →
      (rid ∈ (handleMessage s msg).1.pendingRequests ↔ rid ∈ s.pendingRequests) := by
  unfold handleMessage at he ⊢
  split at he
  next hcond =>
    split at he
    next herr =>
      simp only [List.mem_singleton] at he
      subst he
      refine ⟨rfl, Or.inr ⟨herr, rfl⟩, ?_⟩
      intro rid hrid
      rw [if_pos hcond, if_pos herr]
      exact mem_filter_ne s.pendingRequests msg.requestId rid hrid
    next herr =>
      simp only [List.mem_singleton] at he
      subst he
      refine ⟨rfl, Or.inl rfl, ?_⟩
      intro rid hrid
      rw [if_pos hcond, if_neg herr]
      exact mem_filter_ne s.pendingRequests msg.requestId rid hrid
  next hcond =>
    exfalso
    apply hs
    split at he
    next =>
      simp only [List.mem_singleton] at he
      subst he
      rfl
    next =>
      simp only [List.not_mem_nil] at he

/-- Witness for C1 at a concrete state with two in-flight ids a and b. -/
theorem handleMessage_settles_only_matching_witness :
    ((ClientEffect.resolveFuture "a" (Payload.status "pending") ∈
        (handleMessage ⟨some ReadyState.OPEN, [], ["a", "b"], 0, false, []⟩
          ⟨"open-editor", Payload.status "pending", "a", 3⟩).2) ∧
      (ClientEffect.resolveFuture "a" (Payload.status "pending")).settledId ≠ none) ∧
    ((ClientEffect.resolveFuture "a" (Payload.status "pending")).settledId = some "a" ∧
      (ClientEffect.resolveFuture "a" (Payload.status "pending") =
          ClientEffect.resolveFuture "a" (Payload.status "pending") ∨
        (("open-editor" : String) = "error" ∧
          ClientEffect.resolveFuture "a" (Payload.status "pending") =
            ClientEffect.rejectFuture "a" (jsOrServerError (Payload.status "pending")))) ∧
      ∀ rid, rid ≠ "a" →
        (rid ∈ (handleMessage ⟨some ReadyState.OPEN, [], ["a", "b"], 0, false, []⟩
            ⟨"open-editor", Payload.status "pending", "a", 3⟩).1.pendingRequests ↔
          rid ∈ (["a", "b"] : List String))) :=
  ⟨⟨by decide, by decide⟩,
    handleMessage_settles_only_matching
      ⟨some ReadyState.OPEN, [], ["a", "b"], 0, false, []⟩
      ⟨"open-editor", Payload.status "pending", "a", 3⟩
      (ClientEffect.resolveFuture "a" (Payload.status "pending"))
      (by decide) (by decide)⟩

/-- Claim C2: an envelope sent while the socket is not OPEN is appended to the
outbound queue and nothing is written to the transport; when the connection
opens, the queue is transmitted front-first in its enqueue order and emptied;
and a request issued after the open transition is written to the transport
strictly after every queued envelope. -/
theorem outbound_queue_flush_order (s : ClientState) (sendOk : WebSocketMessage → Bool)
    (req : OutboundRequest) (rid : String) (now : Nat)
    (hAll : ∀ m, sendOk m = true) :
    (isOpen s = false →
      ∃ p, send sendOk s req rid now = Except.ok p ∧
        p.1.messageQueue = s.messageQueue ++ [fullMessage req rid now] ∧
        transportSends p.2 = []) ∧
    transportSends (handleOpen sendOk s).2 = s.messageQueue ∧
    (handleOpen sendOk s).1.messageQueue = [] ∧
    ∃ q, send sendOk (handleOpen sendOk s).1 req rid now = Except.ok q ∧
      transportSends ((handleOpen sendOk s).2 ++ q.2) =
        s.messageQueue ++ [fullMessage req rid now] := by
  have hopen := handleOpen_eq sendOk s hAll
  refine ⟨?_, ?_, ?_, ?_⟩
  · intro hno
    refine ⟨_, send_not_open sendOk s req rid now hno, ?_, ?_⟩
    · rw [registerPending_queue, connect_preserves_queue]
    · rw [transportSends_append, connect_no_transportSend]
      rfl
  · rw [hopen]
    exact transportSends_map _
  · rw [hopen]
  · refine ⟨_, send_open sendOk (handleOpen sendOk s).1 req rid now (by rw [hopen]; rfl)
      (hAll _), ?_⟩
    rw [hopen, transportSends_append, transportSends_map]
    rfl

/-- Witness for C2 with one queued envelope and a later request. -/
theorem outbound_queue_flush_order_witness :
    (∀ m : WebSocketMessage, (fun _ : WebSocketMessage => true) m = true) ∧
    ((isOpen ⟨none, [⟨"open-editor", Payload.opaque_ "p1", "q1", 1⟩], [], 0, false, []⟩ = false →
      ∃ p, send (fun _ => true)
          ⟨none, [⟨"open-editor", Payload.opaque_ "p1", "q1", 1⟩], [], 0, false, []⟩
          ⟨"insert-code", Payload.opaque_ "p2"⟩ "r2" 9 = Except.ok p ∧
        p.1.messageQueue =
          [⟨"open-editor", Payload.opaque_ "p1", "q1", 1⟩] ++
            [fullMessage ⟨"insert-code", Payload.opaque_ "p2"⟩ "r2" 9] ∧
        transportSends p.2 = []) ∧
    transportSends (handleOpen (fun _ => true)
        ⟨none, [⟨"open-editor", Payload.opaque_ "p1", "q1", 1⟩], [], 0, false, []⟩).2 =
      [⟨"open-editor", Payload.opaque_ "p1", "q1", 1⟩] ∧
    (handleOpen (fun _ => true)
        ⟨none, [⟨"open-editor", Payload.opaque_ "p1", "q1", 1⟩], [], 0, false, []⟩).1.messageQueue =
      [] ∧
    ∃ q, send (fun _ => true)
        (handleOpen (fun _ => true)
          ⟨none, [⟨"open-editor", Payload.opaque_ "p1", "q1", 1⟩], [], 0, false, []⟩).1
        ⟨"insert-code", Payload.opaque_ "p2"⟩ "r2" 9 = Except.ok q ∧
      transportSends ((handleOpen (fun _ => true)
          ⟨none, [⟨"open-editor", Payload.opaque_ "p1", "q1", 1⟩], [], 0, false, []⟩).2 ++ q.2) =
        [⟨"open-editor", Payload.opaque_ "p1", "q1", 1⟩] ++
          [fullMessage ⟨"insert-code", Payload.opaque_ "p2"⟩ "r2" 9]) :=
  ⟨fun _ => rfl,
    outbound_queue_flush_order
      ⟨none, [⟨"open-editor", Payload.opaque_ "p1", "q1", 1⟩], [], 0, false, []⟩
      (fun _ => true) ⟨"insert-code", Payload.opaque_ "p2"⟩ "r2" 9 (fun _ => rfl)⟩

/-- Claim C3: the delay scheduled before automatic reconnection attempt n is
1000 times 2 to the power n minus 1; starting from a fresh client the first
five invocations schedule attempts after 1000, 2000, 4000, 8000 and 16000 ms
and a sixth invocation schedules nothing, and in general once the counter has
reached the maximum of 5 the reconnect path does nothing, leaving the client
disconnected. -/
theorem reconnect_backoff (s : ClientState) (n : Nat) (h1 : 1 ≤ n) (h2 : n ≤ 5)
    (ha : s.reconnectAttempts = n - 1) :
    (reconnect s).2 = [ClientEffect.scheduleReconnect (1000 * 2 ^ (n - 1))] ∧
    (reconnect s).1.reconnectAttempts = n ∧
    (iterateReconnect 6 freshClient).2 =
      [ClientEffect.scheduleReconnect 1000, ClientEffect.scheduleReconnect 2000,
       ClientEffect.scheduleReconnect 4000, ClientEffect.scheduleReconnect 8000,
       ClientEffect.scheduleReconnect 16000] ∧
    (∀ t : ClientState, maxReconnectAttempts ≤ t.reconnectAttempts → reconnect t = (t, [])) := by
  have hcond : ¬ (maxReconnectAttempts ≤ s.reconnectAttempts) := by
    rw [ha]
    simp only [maxReconnectAttempts]
    omega
  refine ⟨?_, ?_, ?_, ?_⟩
  · unfold reconnect
    rw [if_neg hcond, ha]
    simp [reconnectDelay]
  · unfold reconnect
    rw [if_neg hcond]
    simp only [ha]
    omega
  · decide
  · intro t ht
    unfold reconnect
    rw [if_pos ht]

/-- Witness for C3 at attempt 3 from a state with two failures recorded. -/
theorem reconnect_backoff_witness :
    (1 ≤ 3 ∧ 3 ≤ 5 ∧ (⟨none, [], [], 2, false, []⟩ : ClientState).reconnectAttempts = 3 - 1) ∧
    ((reconnect ⟨none, [], [], 2, false, []⟩).2 =
        [ClientEffect.scheduleReconnect (1000 * 2 ^ (3 - 1))] ∧
      (reconnect ⟨none, [], [], 2, false, []⟩).1.reconnectAttempts = 3 ∧
      (iterateReconnect 6 freshClient).2 =
        [ClientEffect.scheduleReconnect 1000, ClientEffect.scheduleReconnect 2000,
         ClientEffect.scheduleReconnect 4000, ClientEffect.scheduleReconnect 8000,
         ClientEffect.scheduleReconnect 16000] ∧
      (∀ t : ClientState, maxReconnectAttempts ≤ t.reconnectAttempts → reconnect t = (t, []))) :=
  ⟨⟨by decide, by decide, by decide⟩,
    reconnect_backoff ⟨none, [], [], 2, false, []⟩ 3 (by decide) (by decide) (by decide)⟩

/-- Counterexample for C4: with one in-flight request, disconnect removes the
pending entry but emits no rejection of its future, and when the close event of
the requested transport close later fires, the onclose handler schedules an
automatic reconnection attempt after 1000 ms. -/
theorem disconnect_clears_without_reject :
    (⟨some ReadyState.OPEN, [], ["r1"], 2, false, []⟩ : ClientState).pendingRequests = ["r1"] ∧
    hasRejectFor (disconnect ⟨some ReadyState.OPEN, [], ["r1"], 2, false, []⟩).2 "r1" = false ∧
    (disconnect ⟨some ReadyState.OPEN, [], ["r1"], 2, false, []⟩).1.pendingRequests = [] ∧
    (handleClose (disconnect ⟨some ReadyState.OPEN, [], ["r1"], 2, false, []⟩).1).2 =
      [ClientEffect.scheduleReconnect 1000] := by
  decide

/-- Claim C4 as amended: disconnect closes and nulls the transport, empties the
outbound queue, removes every pending entry without settling its future (no
resolve and no reject effect is emitted), and resets the reconnect counter to
0; because the onclose handler calls reconnect unconditionally, the close event
produced by the deliberate disconnect then schedules an automatic reconnection
attempt after 1000 ms. -/
theorem disconnect_amended (s : ClientState) :
    (disconnect s).1.ws = none ∧
    (disconnect s).1.messageQueue = [] ∧
    (disconnect s).1.pendingRequests = [] ∧
    (disconnect s).1.reconnectAttempts = 0 ∧
    ((disconnect s).2.all fun e => e.settledId.isNone) = true ∧
    (handleClose (disconnect s).1).2 = [ClientEffect.scheduleReconnect 1000] := by
  by_cases h : s.ws.isSome = true <;>
    simp [disconnect, h, handleClose, reconnect, maxReconnectAttempts, reconnectDelay,
      ClientEffect.settledId]

/-- Claim C5: an envelope whose kind is outside the recognized set is answered
with an error envelope echoing the same correlation id and naming the unknown
kind; routeMessage is total, so the request is neither dropped silently nor
does it crash the server. -/
theorem unknown_kind_gets_error_response (msg : WebSocketMessage) (now : Nat)
    (h : ¬ msg.type ∈ recognizedKinds) :
    routeMessage now msg =
      { type := "error",
        payload := Payload.errorInfo ("Unknown message type: " ++ msg.type) "",
        requestId := msg.requestId, timestamp := now } := by
  simp only [recognizedKinds, List.mem_cons, List.not_mem_nil, or_false, not_or] at h
  obtain ⟨h1, h2, h3, h4⟩ := h
  simp [routeMessage, h1, h2, h3, h4, sendError]

/-- Witness for C5 at an envelope of kind bogus-kind. -/
theorem unknown_kind_gets_error_response_witness :
    (¬ ("bogus-kind" : String) ∈ recognizedKinds) ∧
    routeMessage 4 ⟨"bogus-kind", Payload.status "s", "r9", 1⟩ =
      ⟨"error", Payload.errorInfo ("Unknown message type: " ++ "bogus-kind") "", "r9", 4⟩ :=
  ⟨by decide,
    unknown_kind_gets_error_response ⟨"bogus-kind", Payload.status "s", "r9", 1⟩ 4 (by decide)⟩

/-- Counterexample for C6: an unparseable frame is not dropped without a
response; the server answers it with an error envelope whose correlation id is
the literal string unknown. -/
theorem malformed_frame_sends_response :
    handleFrame 5 (Except.error ⟨"Unexpected token", ""⟩) =
      [⟨"error", Payload.errorInfo "Unexpected token" "", "unknown", 5⟩] ∧
    handleFrame 5 (Except.error ⟨"Unexpected token", ""⟩) ≠ ([] : List WebSocketMessage) := by
  refine ⟨rfl, ?_⟩
  intro hc
  exact List.noConfusion hc

/-- Claim C6 as amended: for every inbound frame the server cannot parse, it
logs the error and sends exactly one error envelope back, carrying the parse
error message and the placeholder correlation id unknown, rather than dropping
the frame without a response. -/
theorem malformed_frame_error_response (now : Nat) (e : JsError) :
    handleFrame now (Except.error e) =
      [{ type := "error", payload := Payload.errorInfo e.message e.stack,
         requestId := "unknown", timestamp := now }] := rfl

/-- Claim C7: the request timeout constant is 10000 ms; when the timer fires for
a still-pending correlation id, the entry is removed and its future rejected
with Request timeout, and a response for that same expired id arriving
afterwards settles no future at all (it resolves nothing and rejects nothing). -/
theorem timeout_then_late_response (s : ClientState) (rid : String) (msg : WebSocketMessage)
    (hp : s.pendingRequests.contains rid = true) (hm : msg.requestId = rid) :
    requestTimeoutMs = 10000 ∧
    (requestTimeoutFire s rid).2 = [ClientEffect.rejectFuture rid "Request timeout"] ∧
    rid ∉ (requestTimeoutFire s rid).1.pendingRequests ∧
    ((handleMessage (requestTimeoutFire s rid).1 msg).2.all fun e => e.settledId.isNone) = true := by
  have hfire : requestTimeoutFire s rid =
      ({ s with pendingRequests := s.pendingRequests.filter (fun x => x != rid) },
        [ClientEffect.rejectFuture rid "Request timeout"]) := by
    unfold requestTimeoutFire
    rw [if_pos hp]
  refine ⟨rfl, by rw [hfire], ?_, ?_⟩
  · rw [hfire]
    exact not_mem_filter_self _ _
  · rw [hfire]
    unfold handleMessage
    split
    next hcb =>
      exfalso
      have h2 := (Bool.and_eq_true _ _).mp hcb
      have h3 : msg.requestId ∈ s.pendingRequests.filter (fun x => x != rid) := by
        simpa using h2.2
      rw [hm] at h3
      exact not_mem_filter_self _ _ h3
    next hcb =>
      split
      next => rfl
      next => rfl

/-- Witness for C7 with a pending id t1 whose response arrives after expiry. -/
theorem timeout_then_late_response_witness :
    ((⟨some ReadyState.OPEN, [], ["t1"], 0, false,
        ["component-selected"]⟩ : ClientState).pendingRequests.contains "t1" = true ∧
      (⟨"component-selected", Payload.status "ok", "t1", 7⟩ : WebSocketMessage).requestId = "t1") ∧
    (requestTimeoutMs = 10000 ∧
      (requestTimeoutFire
          ⟨some ReadyState.OPEN, [], ["t1"], 0, false, ["component-selected"]⟩ "t1").2 =
        [ClientEffect.rejectFuture "t1" "Request timeout"] ∧
      "t1" ∉ (requestTimeoutFire
          ⟨some ReadyState.OPEN, [], ["t1"], 0, false, ["component-selected"]⟩ "t1").1.pendingRequests ∧
      ((handleMessage
          (requestTimeoutFire
            ⟨some ReadyState.OPEN, [], ["t1"], 0, false, ["component-selected"]⟩ "t1").1
          ⟨"component-selected", Payload.status "ok", "t1", 7⟩).2.all
        fun e => e.settledId.isNone) = true) :=
  ⟨⟨by decide, by decide⟩,
    timeout_then_late_response
      ⟨some ReadyState.OPEN, [], ["t1"], 0, false, ["component-selected"]⟩
      "t1" ⟨"component-selected", Payload.status "ok", "t1", 7⟩ (by decide) (by decide)⟩

/-- Claim C8: connect is idempotent: from a state that is neither OPEN nor
already connecting, two immediate connect calls construct exactly one
transport; a call on an OPEN socket returns immediately doing nothing, and a
call while a connection attempt is in progress joins the existing attempt
without constructing a second transport. -/
theorem connect_idempotent (s : ClientState)
    (h1 : isOpen s = false) (h2 : s.isConnecting = false) :
    countNewTransports ((connect s).2 ++ (connect (connect s).1).2) = 1 ∧
    (∀ t, isOpen t = true → connect t = (t, [])) ∧
    (∀ t, t.isConnecting = true → connect t = (t, [])) := by
  refine ⟨?_, ?_, ?_⟩
  · have hc1 : connect s =
        ({ s with isConnecting := true, ws := some ReadyState.CONNECTING },
          [ClientEffect.newTransport clientUrl,
           ClientEffect.scheduleConnectTimeout connectTimeoutMs]) := by
      unfold connect
      rw [if_neg (by simp [h1]), if_neg (by simp [h2])]
    have hc2 : connect (connect s).1 = ((connect s).1, []) := by
      rw [hc1]
      rfl
    rw [hc2, hc1]
    rfl
  · intro t ht
    unfold connect
    rw [if_pos ht]
  · intro t ht
    by_cases ho : isOpen t = true
    · unfold connect
      rw [if_pos ho]
    · unfold connect
      rw [if_neg (by simp [ho]), if_pos ht]

/-- Witness for C8 from a freshly constructed client. -/
theorem connect_idempotent_witness :
    (isOpen freshClient = false ∧ freshClient.isConnecting = false) ∧
    (countNewTransports ((connect freshClient).2 ++ (connect (connect freshClient).1).2) = 1 ∧
      (∀ t, isOpen t = true → connect t = (t, [])) ∧
      (∀ t, t.isConnecting = true → connect t = (t, []))) :=
  ⟨⟨by decide, by decide⟩, connect_idempotent freshClient (by decide) (by decide)⟩

/-- Counterexample for C9: with a liveness record for pid 42 whose process is
alive, startCommand still succeeds (it never checks the record and never fails
with AlreadyRunning), overwrites the record with the pid of the supervising
process itself (7) and spawns no detached child. -/
theorem startCommand_ignores_live_record :
    (⟨some 42, [42]⟩ : SupervisorWorld).pidFile = some 42 ∧
    42 ∈ (⟨some 42, [42]⟩ : SupervisorWorld).livePids ∧
    startCommand 7 true ⟨some 42, [42]⟩ = Except.ok ⟨⟨some 7, [42]⟩, 7, none⟩ ∧
    startCommand 7 true ⟨some 42, [42]⟩ ≠ Except.error StartError.alreadyRunning := by
  refine ⟨rfl, by decide, rfl, ?_⟩
  intro hc
  exact Except.noConfusion hc

/-- Claim C9 as amended: the start operation runs the Server inside the
supervising CLI process itself (no detached child is spawned), records the own
pid of the supervising process in the Liveness Record unconditionally whenever
the server starts, and never fails with AlreadyRunning, even when a Liveness
Record identifying a live process already exists. -/
theorem startCommand_foreground_overwrite (selfPid : Nat) (ok : Bool) (w : SupervisorWorld) :
    startCommand selfPid true w =
      Except.ok ⟨⟨some selfPid, w.livePids⟩, selfPid, none⟩ ∧
    startCommand selfPid ok w ≠ Except.error StartError.alreadyRunning := by
  constructor
  · rfl
  · cases ok
    · intro hc
      simp only [startCommand, if_neg Bool.false_ne_true] at hc
      exact StartError.noConfusion (Except.error.inj hc)
    · intro hc
      exact Except.noConfusion hc

/-- Claim C10: every successfully handled request, whatever its kind among the
four recognized ones, is answered with an envelope whose kind tag is
component-selected, echoing the request id; only the payload varies, so the
envelope kind tag cannot distinguish response kinds. -/
theorem responses_always_component_selected (p : Payload) (rid : String) (ts now : Nat) :
    routeMessage now ⟨"component-selected", p, rid, ts⟩ =
      ⟨"component-selected", Payload.status "acknowledged", rid, now⟩ ∧
    routeMessage now ⟨"open-editor", p, rid, ts⟩ =
      ⟨"component-selected", Payload.status "pending", rid, now⟩ ∧
    routeMessage now ⟨"generate-testids", p, rid, ts⟩ =
      ⟨"component-selected", Payload.status "pending", rid, now⟩ ∧
    routeMessage now ⟨"insert-code", p, rid, ts⟩ =
      ⟨"component-selected", Payload.status "pending", rid, now⟩ :=
  ⟨rfl, rfl, rfl, rfl⟩

end Telescope
